import Mathlib

/-!
Verification of the manila share-group orchestration layer.

This file is a shallow embedding, in Lean 4, of the two core modules of the
repository:

* `manila/share_group/api.py` — the share-group orchestration API
  (`API.create`, `API.delete`, `API.create_group_snapshot`), modelled as pure
  functions over an explicit database state `DB`, returning an
  `Except Exc` result, the final database state, and the list of RPC
  messages dispatched to the scheduler / backend.
* `manila/share_group/group_types.py` — the group-type registry
  (`group_types_diff`, `parse_boolean_extra_spec`).

Dict-shaped Python records become Lean structures; the database driver
becomes lookup/insert operations on lists of records; Python exceptions
become the `Exc` inductive; truthiness of optional strings is modelled
explicitly.  Theorems at the end of the file settle the behavioural claims
about these functions.
-/

set_option linter.unusedVariables false

deriving instance DecidableEq for Except

namespace Manila

/-- Python exception classes raised by the embedded code.  `external n`
stands for an arbitrary exception raised by an external collaborator
(e.g. the share provisioning service). -/
inductive Exc where
  | invalidInput
  | invalidShareGroup
  | invalidGroupSnapshot
  | invalidExtraSpec
  | invalidShareGroupType
  | shareTypeNotFound
  | shareGroupTypeNotFound
  | groupSnapshotNotFound
  | shareGroupNotFound
  | shareNetworkNotFound
  | shareNotFound
  | shareInstanceNotFound
  | external (code : Nat)
  deriving DecidableEq, Repr

/-! ### Status constants (`manila/common/constants.py`) -/

def STATUS_AVAILABLE : String := "available"

def STATUS_CREATING : String := "creating"

def STATUS_ERROR : String := "error"

def STATUS_DELETING : String := "deleting"

def DHSS_KEY : String := "driver_handles_share_servers"

/-! ### Python string helpers -/

/-- ASCII whitespace as recognised by Python's `str.strip` and `\s`. -/
def isPySpace (c : Char) : Bool :=
  c = ' ' || c = '\t' || c = '\n' || c = '\r' || c = '\x0b' || c = '\x0c'

/-- Python `str.strip()` on a character list. -/
def pyStrip (l : List Char) : List Char :=
  ((l.dropWhile isPySpace).reverse.dropWhile isPySpace).reverse

/-- `value.strip()` followed by lower-casing, the normal form on which the
case-insensitive regex match of `parse_boolean_extra_spec` is decided. -/
def lowerStrip (s : String) : List Char :=
  (pyStrip s.data).map Char.toLower

/-- Truthiness of an optional string (Python: `None` and `''` are falsy). -/
def truthyS : Option String → Bool
  | none => false
  | some s => !(s == "")

/-- Normalise an optional string so that `some ""` (falsy in Python) becomes
`none`; the result is `some _` exactly when the Python value is truthy. -/
def optTruthy : Option String → Option String
  | none => none
  | some s => if s == "" then none else some s

/-- Python `a or b` for an optional list argument: an absent or empty list
is falsy and selects the default. -/
def listOr (o : Option (List String)) (dflt : List String) : List String :=
  match o with
  | some (x :: xs) => x :: xs
  | _ => dflt

/-! ### Association-list dictionaries (Python `dict`) -/

/-- `d.get(k)`: value of the first entry with key `k`. -/
def dlookup {α : Type} : List (String × α) → String → Option α
  | [], _ => none
  | (k', v') :: rest, k => if k' == k then some v' else dlookup rest k

/-- `d[k] = v`: replace the value at the first occurrence of `k`, keeping
its position, or append a new entry (Python dict assignment order). -/
def dinsert {α : Type} : List (String × α) → String → α → List (String × α)
  | [], k, v => [(k, v)]
  | (k', v') :: rest, k, v =>
    if k' == k then (k', v) :: rest else (k', v') :: dinsert rest k v

/-- Keys of a dictionary, in insertion order. -/
def dkeys {α : Type} (d : List (String × α)) : List String :=
  d.map Prod.fst

/-! ### `strutils.bool_from_string` (non-strict, default `False`)

`oslo_utils.strutils.bool_from_string(subject)` stringifies its argument,
strips and lower-cases it, and returns `True` exactly for the members of
`TRUE_STRINGS`; everything else (including `None`, which stringifies to
`"None"`) yields the default `False`. -/

def bool_from_string (v : Option String) : Bool :=
  match v with
  | none => false
  | some s =>
    let l := lowerStrip s
    l == "1".data || l == "t".data || l == "true".data ||
      l == "on".data || l == "y".data || l == "yes".data

/-! ### `parse_boolean_extra_spec` (`group_types.py`)

The source rejects non-string values, then matches the stripped value
against the regex `^<is>\s*(True|False)$` with `re.IGNORECASE`, and feeds
the captured group to `strutils.bool_from_string(strict=True)` — which on
the captured `True`/`False` (any case) yields the corresponding boolean.
Case-insensitive matching of a pattern whose letters are literals is
decided here on the lower-cased stripped value. -/

/-- A Python value as it may arrive in an extra-specs map. -/
inductive PyVal where
  | str (s : String)
  | bool (b : Bool)
  | int (n : Int)
  | none
  deriving DecidableEq, Repr

/-- Match the lower-cased stripped value against `<is>\s*(true|false)`
anchored on both sides; `some b` is the boolean captured. -/
def isMatch (l : List Char) : Option Bool :=
  if l.take 4 = ['<', 'i', 's', '>'] then
    if (l.drop 4).dropWhile isPySpace = ['t', 'r', 'u', 'e'] then some true
    else if (l.drop 4).dropWhile isPySpace = ['f', 'a', 'l', 's', 'e'] then some false
    else none
  else none

def parse_boolean_extra_spec (extra_spec_key extra_spec_value : PyVal) :
    Except Exc Bool :=
  match extra_spec_value with
  | PyVal.str s =>
    match isMatch (lowerStrip s) with
    | some b => Except.ok b
    | none => Except.error Exc.invalidExtraSpec
  | _ => Except.error Exc.invalidExtraSpec

/-- The character sequence of the boolean literal captured by the regex,
lower-cased. -/
def boolLit : Bool → List Char
  | true => ['t', 'r', 'u', 'e']
  | false => ['f', 'a', 'l', 's', 'e']

/-- Spec-side description of the accepted inputs, written from the spec's
words: after trimming surrounding whitespace the value reads `<is>`,
optional whitespace, then `True` or `False`, all case-insensitively. -/
def matchesIsBool (s : String) (b : Bool) : Prop :=
  ∃ pad : List Char, (∀ c ∈ pad, isPySpace c = true) ∧
    lowerStrip s = '<' :: 'i' :: 's' :: '>' :: (pad ++ boolLit b)

/-! ### Record types (dict-shaped rows of the record store) -/

structure ShareTypeRec where
  id : String
  extra_specs : List (String × String)
  deriving DecidableEq, Repr

structure GroupTypeRec where
  id : String
  share_types : List String
  extra_specs : List (String × String)
  deriving DecidableEq, Repr

structure ShareGroupRec where
  id : String
  status : String
  host : Option String
  share_group_type_id : Option String
  source_group_snapshot_id : Option String
  share_network_id : Option String
  share_server_id : Option String
  share_types : List String
  name : Option String
  description : Option String
  user_id : String
  project_id : String
  deriving DecidableEq, Repr

structure GroupSnapshotRec where
  id : String
  status : String
  share_group_id : String
  name : Option String
  description : Option String
  user_id : String
  project_id : String
  deriving DecidableEq, Repr

structure MemberRec where
  id : String
  group_snapshot_id : String
  share_id : String
  share_instance_id : String
  share_proto : String
  size : Nat
  status : String
  user_id : String
  project_id : String
  deriving DecidableEq, Repr

structure ShareRec where
  id : String
  status : String
  size : Nat
  share_proto : String
  share_type_id : String
  share_group_id : Option String
  instance_id : String
  deriving DecidableEq, Repr

/-- The request context (only the fields the embedded code reads). -/
structure Ctx where
  user_id : String
  project_id : String
  deriving DecidableEq, Repr

/-- The record store.  `next_id` feeds the id generator for newly created
records. -/
structure DB where
  share_groups : List ShareGroupRec
  group_snapshots : List GroupSnapshotRec
  snapshot_members : List MemberRec
  shares : List ShareRec
  share_types : List ShareTypeRec
  group_types : List GroupTypeRec
  share_networks : List String
  share_instances : List String
  next_id : Nat
  deriving DecidableEq, Repr

/-! ### Record-store operations (`self.db.*`) -/

def group_snapshot_get (db : DB) (id : String) : Except Exc GroupSnapshotRec :=
  match db.group_snapshots.find? (fun s => s.id == id) with
  | some s => Except.ok s
  | none => Except.error Exc.groupSnapshotNotFound

def share_group_get (db : DB) (id : String) : Except Exc ShareGroupRec :=
  match db.share_groups.find? (fun g => g.id == id) with
  | some g => Except.ok g
  | none => Except.error Exc.shareGroupNotFound

def share_type_get (db : DB) (id : String) : Except Exc ShareTypeRec :=
  match db.share_types.find? (fun t => t.id == id) with
  | some t => Except.ok t
  | none => Except.error Exc.shareTypeNotFound

def share_get (db : DB) (id : String) : Except Exc ShareRec :=
  match db.shares.find? (fun s => s.id == id) with
  | some s => Except.ok s
  | none => Except.error Exc.shareNotFound

def share_instance_get (db : DB) (id : String) : Except Exc Unit :=
  if db.share_instances.contains id then Except.ok ()
  else Except.error Exc.shareInstanceNotFound

/-- `self.db.group_type_get` (raises `ShareGroupTypeNotFound`, the class
caught by `API.create`). -/
def db_group_type_get (db : DB) (id : Option String) : Except Exc GroupTypeRec :=
  match id with
  | none => Except.error Exc.shareGroupTypeNotFound
  | some i =>
    match db.group_types.find? (fun t => t.id == i) with
    | some t => Except.ok t
    | none => Except.error Exc.shareGroupTypeNotFound

def share_group_destroy (db : DB) (id : String) : DB :=
  { db with share_groups := db.share_groups.filter (fun g => !(g.id == id)) }

def share_group_update_status (db : DB) (id : String) (status : String) : DB :=
  { db with share_groups :=
      db.share_groups.map (fun g => if g.id == id then { g with status } else g) }

def count_shares_in_share_group (db : DB) (id : String) : Nat :=
  (db.shares.filter (fun s => s.share_group_id == some id)).length

def count_group_snapshots_in_share_group (db : DB) (id : String) : Nat :=
  (db.group_snapshots.filter (fun s => s.share_group_id == id)).length

def share_get_all_by_share_group_id (db : DB) (id : String) : List ShareRec :=
  db.shares.filter (fun s => s.share_group_id == some id)

def group_snapshot_members_get_all (db : DB) (sid : String) : List MemberRec :=
  db.snapshot_members.filter (fun m => m.group_snapshot_id == sid)

/-! ### RPC messages dispatched by the orchestration API -/

inductive RpcCall where
  | schedCreateShareGroup (group_id : String)
  | backendCreateShareGroup (group_id : String) (host : Option String)
  | backendDeleteShareGroup (group_id : String)
  | backendCreateGroupSnapshot (snapshot_id : String) (host : Option String)
  deriving DecidableEq, Repr

/-- The share provisioning service (`self.share_api.create`), an external
collaborator: given the snapshot member, its resolved share type, the new
group's id and the share network, it either succeeds or raises. -/
def ShareApiFn : Type :=
  MemberRec → ShareTypeRec → String → Option String → Except Exc Unit

/-! ### `API.create` (`share_group/api.py`, lines 50-188) -/

structure CreateArgs where
  name : Option String
  description : Option String
  share_type_ids : Option (List String)
  source_group_snapshot_id : Option String
  share_network_id : Option String
  share_group_type_id : Option String
  deriving DecidableEq, Repr

/-- The locals after the snapshot-source phase of `API.create`
(lines 55-74): the loaded snapshot and its parent group, and the possibly
overridden `share_type_ids`, `share_network_id`, `share_server_id`. -/
structure SourceInfo where
  source : Option (GroupSnapshotRec × ShareGroupRec)
  share_type_ids : Option (List String)
  share_network_id : Option String
  share_server_id : Option String
  deriving DecidableEq, Repr

/-- Lines 55-74: if a source snapshot id is given (truthy), load it,
require it AVAILABLE, load its parent group and inherit share types,
network and server from the parent. -/
def resolveSource (db : DB) (a : CreateArgs) : Except Exc SourceInfo :=
  match optTruthy a.source_group_snapshot_id with
  | some sid =>
    match group_snapshot_get db sid with
    | Except.error e => Except.error e
    | Except.ok snap =>
      if snap.status ≠ STATUS_AVAILABLE then Except.error Exc.invalidGroupSnapshot
      else
        match share_group_get db snap.share_group_id with
        | Except.error e => Except.error e
        | Except.ok og =>
          Except.ok ⟨some (snap, og), some og.share_types,
            og.share_network_id, og.share_server_id⟩
  | none => Except.ok ⟨none, a.share_type_ids, a.share_network_id, none⟩

/-- `driver_handles_share_servers` value of a share type, as evaluated by
line 90-92: `bool_from_string(extra_specs.get(DHSS))`. -/
def dhssOf (st : ShareTypeRec) : Bool :=
  bool_from_string (dlookup st.extra_specs DHSS_KEY)

/-- The share-type resolution loop of lines 79-107.  Each share type must
resolve (else `InvalidInput`); types with falsy (empty) `extra_specs` are
skipped; otherwise the DHSS flag is folded: a disagreement with the flag
already derived raises `InvalidInput`, and a false flag combined with a
truthy share network also raises `InvalidInput`. -/
def dhssLoop (db : DB) (net : Option String) :
    Option Bool → List String → Except Exc (Option Bool)
  | acc, [] => Except.ok acc
  | acc, tid :: rest =>
    match share_type_get db tid with
    | Except.error _ => Except.error Exc.invalidInput
    | Except.ok st =>
      if st.extra_specs = [] then dhssLoop db net acc rest
      else
        let h := dhssOf st
        match acc with
        | none =>
          if !h && truthyS net then Except.error Exc.invalidInput
          else dhssLoop db net (some h) rest
        | some d =>
          if d != h then Except.error Exc.invalidInput
          else if !h && truthyS net then Except.error Exc.invalidInput
          else dhssLoop db net (some d) rest

/-- Lines 109-114: a truthy share network id must exist in the store
(`ShareNetworkNotFound` is converted to `InvalidInput`). -/
def checkNetwork (db : DB) (net : Option String) : Except Exc Unit :=
  if truthyS net then
    if db.share_networks.contains (net.getD "") then Except.ok ()
    else Except.error Exc.invalidInput
  else Except.ok ()

/-- Everything `API.create` has derived once validation has passed. -/
structure ValidatedCreate where
  source : Option (GroupSnapshotRec × ShareGroupRec)
  share_type_ids : Option (List String)
  share_network_id : Option String
  share_server_id : Option String
  group_type : GroupTypeRec
  supported : List String
  deriving DecidableEq, Repr

/-- Lines 76-135 after the snapshot phase: the share-type loop, the
network existence check, the DHSS-requires-network check, group-type
resolution, and the subset check against the group type's share types. -/
def validateRest (db : DB) (a : CreateArgs) (info : SourceInfo) :
    Except Exc ValidatedCreate :=
  match dhssLoop db info.share_network_id none (listOr info.share_type_ids []) with
  | Except.error e => Except.error e
  | Except.ok dhss =>
    match checkNetwork db info.share_network_id with
    | Except.error e => Except.error e
    | Except.ok _ =>
      if dhss == some true &&
          !((optTruthy a.source_group_snapshot_id).isSome ||
            truthyS info.share_network_id) then
        Except.error Exc.invalidInput
      else
        match db_group_type_get db a.share_group_type_id with
        | Except.error _ => Except.error Exc.invalidInput
        | Except.ok gt =>
          let supported := gt.share_types.eraseDups
          if (listOr info.share_type_ids []).all (fun t => supported.contains t) then
            Except.ok ⟨info.source, info.share_type_ids, info.share_network_id,
              info.share_server_id, gt, supported⟩
          else Except.error Exc.invalidInput

/-- The whole validation pipeline of `API.create` (lines 55-135). -/
def validateCreate (db : DB) (a : CreateArgs) : Except Exc ValidatedCreate :=
  match resolveSource db a with
  | Except.error e => Except.error e
  | Except.ok info => validateRest db a info

/-- The `options` dict of lines 137-151 turned into the record that
`db.share_group_create` persists: status CREATING, share types defaulting
to the group type's full set when the derived list is falsy, and the host
copied from the parent group on the snapshot path. -/
def mkGroupRec (db : DB) (ctx : Ctx) (a : CreateArgs) (v : ValidatedCreate) :
    ShareGroupRec :=
  { id := "sg-" ++ toString db.next_id
    status := STATUS_CREATING
    host := match v.source with
      | some (_, og) => og.host
      | none => none
    share_group_type_id := a.share_group_type_id
    source_group_snapshot_id := a.source_group_snapshot_id
    share_network_id := v.share_network_id
    share_server_id := v.share_server_id
    share_types := listOr v.share_type_ids v.supported
    name := a.name
    description := a.description
    user_id := ctx.user_id
    project_id := ctx.project_id }

/-- The body of the member-cloning `try` block (lines 156-170): for each
member of the source snapshot, look up the share, its share type and its
share instance, then ask the share provisioning service to create the
clone. -/
def cloneLoop (db : DB) (api : ShareApiFn) (gid : String) (net : Option String) :
    List MemberRec → Except Exc Unit
  | [] => Except.ok ()
  | m :: rest =>
    match share_get db m.share_id with
    | Except.error e => Except.error e
    | Except.ok sh =>
      match share_type_get db sh.share_type_id with
      | Except.error e => Except.error e
      | Except.ok st =>
        match share_instance_get db m.share_instance_id with
        | Except.error e => Except.error e
        | Except.ok _ =>
          match api m st gid net with
          | Except.error e => Except.error e
          | Except.ok _ => cloneLoop db api gid net rest

def cloneMembers (db : DB) (api : ShareApiFn) (sid gid : String)
    (net : Option String) : Except Exc Unit :=
  cloneLoop db api gid net (group_snapshot_members_get_all db sid)

/-- `db.share_group_create`: the database state after the new group
record has been persisted. -/
def dbAfterGroupCreate (db : DB) (g : ShareGroupRec) : DB :=
  { db with share_groups := db.share_groups ++ [g], next_id := db.next_id + 1 }

/-- `API.create`: result, final database state, dispatched RPC messages.
On a clone failure the just-created group record is destroyed and the
original exception re-raised (lines 171-173); otherwise a snapshot clone
is dispatched straight to the parent group's host and a fresh group to
the scheduler (lines 180-186). -/
def create (db : DB) (ctx : Ctx) (api : ShareApiFn) (a : CreateArgs) :
    Except Exc ShareGroupRec × DB × List RpcCall :=
  match validateCreate db a with
  | Except.error e => (Except.error e, db, [])
  | Except.ok v =>
    let g := mkGroupRec db ctx a v
    let db1 : DB := dbAfterGroupCreate db g
    match v.source with
    | some (snap, og) =>
      match cloneMembers db1 api snap.id g.id v.share_network_id with
      | Except.error e => (Except.error e, share_group_destroy db1 g.id, [])
      | Except.ok _ =>
        (Except.ok g, db1, [RpcCall.backendCreateShareGroup g.id og.host])
    | none => (Except.ok g, db1, [RpcCall.schedCreateShareGroup g.id])

/-! ### `API.delete` (lines 190-217) -/

def delete (db : DB) (group : ShareGroupRec) :
    Except Exc Unit × DB × List RpcCall :=
  if !(truthyS group.host) then
    (Except.ok (), share_group_destroy db group.id, [])
  else if !(group.status == STATUS_AVAILABLE || group.status == STATUS_ERROR) then
    (Except.error Exc.invalidShareGroup, db, [])
  else if count_group_snapshots_in_share_group db group.id ≠ 0 then
    (Except.error Exc.invalidShareGroup, db, [])
  else if count_shares_in_share_group db group.id ≠ 0 then
    (Except.error Exc.invalidShareGroup, db, [])
  else
    (Except.ok (),
      share_group_update_status db group.id STATUS_DELETING,
      [RpcCall.backendDeleteShareGroup group.id])

/-! ### `API.create_group_snapshot` (lines 246-307) -/

/-- The member-status loop of lines 272-278: the first share whose status
is not AVAILABLE raises `InvalidShareGroup`. -/
def checkSharesAvailable : List ShareRec → Except Exc Unit
  | [] => Except.ok ()
  | s :: rest =>
    if s.status ≠ STATUS_AVAILABLE then Except.error Exc.invalidShareGroup
    else checkSharesAvailable rest

/-- Lines 283-297: persist one member per share of the group. -/
def createMembers (db : DB) (ctx : Ctx) (snapId : String) :
    List ShareRec → DB
  | [] => db
  | s :: rest =>
    let m : MemberRec :=
      { id := "member-" ++ toString db.next_id
        group_snapshot_id := snapId
        share_id := s.id
        share_instance_id := s.instance_id
        share_proto := s.share_proto
        size := s.size
        status := STATUS_CREATING
        user_id := ctx.user_id
        project_id := ctx.project_id }
    let db' : DB :=
      { db with
        snapshot_members := db.snapshot_members ++ [m]
        next_id := db.next_id + 1 }
    createMembers db' ctx snapId rest

def create_group_snapshot (db : DB) (ctx : Ctx) (name description : Option String)
    (share_group_id : Option String) :
    Except Exc GroupSnapshotRec × DB × List RpcCall :=
  match share_group_id with
  | none => (Except.error Exc.shareGroupNotFound, db, [])
  | some sid =>
    match share_group_get db sid with
    | Except.error e => (Except.error e, db, [])
    | Except.ok group =>
      if group.status ≠ STATUS_AVAILABLE then
        (Except.error Exc.invalidShareGroup, db, [])
      else
        let shares := share_get_all_by_share_group_id db sid
        match checkSharesAvailable shares with
        | Except.error e => (Except.error e, db, [])
        | Except.ok _ =>
          let snap : GroupSnapshotRec :=
            { id := "snap-" ++ toString db.next_id
              status := STATUS_CREATING
              share_group_id := sid
              name := name
              description := description
              user_id := ctx.user_id
              project_id := ctx.project_id }
          let db1 : DB :=
            { db with
              group_snapshots := db.group_snapshots ++ [snap]
              next_id := db.next_id + 1 }
          let db2 := createMembers db1 ctx snap.id shares
          (Except.ok snap, db2,
            [RpcCall.backendCreateGroupSnapshot snap.id group.host])

/-! ### `group_types_diff` (`group_types.py`, lines 197-237) -/

/-- Registry-level `get_group_type`: a `None` id is rejected up front,
otherwise the store is consulted. -/
def get_group_type (db : DB) (id : Option String) : Except Exc GroupTypeRec :=
  match id with
  | none => Except.error Exc.invalidShareGroupType
  | some _ => db_group_type_get db id

/-- First loop of `_dict_diff`: `for k, v in dict1.items()`. -/
def diffLoop1 (d2 : List (String × String)) :
    List (String × String) →
    List (String × (Option String × Option String)) × Bool →
    List (String × (Option String × Option String)) × Bool
  | [], acc => acc
  | (k, v) :: rest, (res, eq) =>
    let r : Option String × Option String := (some v, dlookup d2 k)
    let eq' := if (dlookup d2 k).isNone || r.1 != r.2 then false else eq
    diffLoop1 d2 rest (dinsert res k r, eq')

/-- Second loop of `_dict_diff`: `for k, v in dict2.items()`. -/
def diffLoop2 (d1 : List (String × String)) :
    List (String × String) →
    List (String × (Option String × Option String)) × Bool →
    List (String × (Option String × Option String)) × Bool
  | [], acc => acc
  | (k, v) :: rest, (res, eq) =>
    let r : Option String × Option String := (dlookup d1 k, some v)
    let eq' := if (dlookup d1 k).isNone || r.1 != r.2 then false else eq
    diffLoop2 d1 rest (dinsert res k r, eq')

/-- `_dict_diff(dict1, dict2)` from `group_types_diff`. -/
def dictDiff (d1 d2 : List (String × String)) :
    List (String × (Option String × Option String)) × Bool :=
  diffLoop2 d1 d2 (diffLoop1 d2 d1 ([], true))

/-- `group_types_diff(context, id1, id2)`: resolve both types and compare
their `extra_specs` maps; the returned pair is the `extra_specs` diff map
and the `equal` flag. -/
def group_types_diff (db : DB) (id1 id2 : Option String) :
    Except Exc (List (String × (Option String × Option String)) × Bool) :=
  match get_group_type db id1 with
  | Except.error e => Except.error e
  | Except.ok t1 =>
    match get_group_type db id2 with
    | Except.error e => Except.error e
    | Except.ok t2 => Except.ok (dictDiff t1.extra_specs t2.extra_specs)

/-- The DHSS flag a share type contributes to the loop of lines 79-107:
`none` when the type does not resolve or its `extra_specs` dict is falsy
(skipped), otherwise the evaluated boolean. -/
def dhssValOf (db : DB) (tid : String) : Option Bool :=
  match share_type_get db tid with
  | Except.ok st => if st.extra_specs = [] then none else some (dhssOf st)
  | Except.error _ => none

/-! ### Concrete states used to instantiate the theorems -/

def exCtx : Ctx := ⟨"u1", "p1"⟩

/-- A share provisioning service that always succeeds. -/
def okApi : ShareApiFn := fun _ _ _ _ => Except.ok ()

/-- A share provisioning service that raises on every call. -/
def failApi : ShareApiFn := fun _ _ _ _ => Except.error (Exc.external 7)

def exType1 : GroupTypeRec := ⟨"gt-a", [], [("k1", "v1"), ("k2", "v2")]⟩

def exType2 : GroupTypeRec := ⟨"gt-b", [], [("k1", "v1"), ("k3", "v3")]⟩

def exDb9 : DB := ⟨[], [], [], [], [], [exType1, exType2], [], [], 0⟩

def exDiff12 : List (String × (Option String × Option String)) × Bool :=
  dictDiff exType1.extra_specs exType2.extra_specs

def exDiff21 : List (String × (Option String × Option String)) × Bool :=
  dictDiff exType2.extra_specs exType1.extra_specs

/-- A parent group that is NOT AVAILABLE (its snapshot is). -/
def exParent5 : ShareGroupRec :=
  ⟨"g0", "error", some "h1", some "gt1", none, none, none, ["t1"], none, none,
    "u1", "p1"⟩

def exSnap5 : GroupSnapshotRec := ⟨"snap1", "available", "g0", none, none, "u1", "p1"⟩

def exDb5 : DB :=
  ⟨[exParent5], [exSnap5], [], [], [⟨"t1", []⟩], [⟨"gt1", ["t1"], []⟩], [], [], 0⟩

def exArgs5 : CreateArgs := ⟨none, none, none, some "snap1", none, some "gt1"⟩

/-- A snapshot that is NOT AVAILABLE. -/
def exSnap5b : GroupSnapshotRec := ⟨"snap2", "creating", "g0", none, none, "u1", "p1"⟩

def exDb5b : DB :=
  ⟨[exParent5], [exSnap5b], [], [], [⟨"t1", []⟩], [⟨"gt1", ["t1"], []⟩], [], [], 0⟩

def exArgs5b : CreateArgs := ⟨none, none, none, some "snap2", none, some "gt1"⟩

/-- A parent group whose `share_types` list is empty. -/
def exParent7 : ShareGroupRec :=
  ⟨"g7", "available", some "h1", some "gt7", none, none, none, [], none, none,
    "u1", "p1"⟩

def exSnap7 : GroupSnapshotRec := ⟨"snap7", "available", "g7", none, none, "u1", "p1"⟩

def exDb7 : DB :=
  ⟨[exParent7], [exSnap7], [], [], [⟨"t1", []⟩], [⟨"gt7", ["t1"], []⟩], [], [], 0⟩

/-- Caller supplies share types and a share network; both are overridden
by the snapshot path. -/
def exArgs7 : CreateArgs :=
  ⟨none, none, some ["zz"], some "snap7", some "net-caller", some "gt7"⟩

def exShare1 : ShareRec := ⟨"s1", "available", 5, "NFS", "t1", some "g0", "i1"⟩

def exMember1 : MemberRec := ⟨"m1", "snap1", "s1", "i1", "NFS", 5, "available", "u1", "p1"⟩

def exDb1 : DB :=
  ⟨[exParent5], [exSnap5], [exMember1], [exShare1], [⟨"t1", []⟩],
    [⟨"gt1", ["t1"], []⟩], [], ["i1"], 0⟩

/-- The validated-create record `validateCreate exDb1 exArgs5` produces. -/
def exV1 : ValidatedCreate :=
  ⟨some (exSnap5, exParent5), some ["t1"], none, none, ⟨"gt1", ["t1"], []⟩, ["t1"]⟩

/-- A group with no host that nevertheless contains a share. -/
def exGroup2 : ShareGroupRec :=
  ⟨"g2", "available", none, none, none, none, none, [], none, none, "u1", "p1"⟩

def exShare2 : ShareRec := ⟨"s2", "available", 1, "NFS", "t1", some "g2", "i2"⟩

def exDb2 : DB := ⟨[exGroup2], [], [], [exShare2], [], [], [], [], 0⟩

/-- A group with a host that contains a share. -/
def exGroup2b : ShareGroupRec :=
  ⟨"g2b", "available", some "h2", none, none, none, none, [], none, none, "u1", "p1"⟩

def exShare2b : ShareRec := ⟨"s2b", "available", 1, "NFS", "t1", some "g2b", "i2"⟩

def exDb2b : DB := ⟨[exGroup2b], [], [], [exShare2b], [], [], [], [], 0⟩

def exGroup4 : ShareGroupRec :=
  ⟨"g4", "available", some "h4", none, none, none, none, [], none, none, "u1", "p1"⟩

def exShare4 : ShareRec := ⟨"s4", "creating", 1, "NFS", "t1", some "g4", "i4"⟩

def exDb4 : DB := ⟨[exGroup4], [], [], [exShare4], [], [], [], [], 0⟩

/-- Share types with conflicting DHSS extra specs. -/
def exTypeT : ShareTypeRec := ⟨"tt", [(DHSS_KEY, "True")]⟩

def exTypeF : ShareTypeRec := ⟨"tf", [(DHSS_KEY, "False")]⟩

def exDb3 : DB :=
  ⟨[], [], [], [], [exTypeT, exTypeF], [⟨"gt3", ["tt", "tf"], []⟩], [], [], 0⟩

def exArgs3 : CreateArgs := ⟨none, none, some ["tt", "tf"], none, none, some "gt3"⟩

/-- A group type that permits no share types at all. -/
def exDb10 : DB := ⟨[], [], [], [], [], [⟨"gt10", [], []⟩], [], [], 0⟩

def exArgs10 : CreateArgs := ⟨none, none, none, none, none, some "gt10"⟩

/-! ## Lemmas about `parse_boolean_extra_spec` -/

lemma dropWhile_append_all {p : Char → Bool} {pad xs : List Char}
    (h : ∀ c ∈ pad, p c = true) :
    (pad ++ xs).dropWhile p = xs.dropWhile p := by
  induction pad with
  | nil => simp
  | cons c cs ih =>
    have hc : p c = true := h c (List.mem_cons_self c cs)
    simp only [List.cons_append, List.dropWhile_cons, hc, if_true]
    exact ih (fun d hd => h d (List.mem_cons_of_mem c hd))

lemma dropWhile_boolLit (b : Bool) :
    (boolLit b).dropWhile isPySpace = boolLit b := by
  cases b <;> decide

lemma isMatch_eq_some {l : List Char} {b : Bool} :
    isMatch l = some b ↔
      ∃ pad : List Char, (∀ c ∈ pad, isPySpace c = true) ∧
        l = '<' :: 'i' :: 's' :: '>' :: (pad ++ boolLit b) := by
  constructor
  · intro h
    unfold isMatch at h
    by_cases h4 : l.take 4 = ['<', 'i', 's', '>']
    · rw [if_pos h4] at h
      refine ⟨(l.drop 4).takeWhile isPySpace, fun c hc => List.mem_takeWhile_imp hc, ?_⟩
      have hsplit : l.take 4 ++ l.drop 4 = l := List.take_append_drop 4 l
      have hdw : (l.drop 4).takeWhile isPySpace ++ (l.drop 4).dropWhile isPySpace
          = l.drop 4 := List.takeWhile_append_dropWhile isPySpace (l.drop 4)
      by_cases ht : (l.drop 4).dropWhile isPySpace = ['t', 'r', 'u', 'e']
      · rw [if_pos ht] at h
        cases h
        calc l = l.take 4 ++ l.drop 4 := hsplit.symm
          _ = ['<', 'i', 's', '>'] ++ l.drop 4 := by rw [h4]
          _ = ['<', 'i', 's', '>'] ++
              ((l.drop 4).takeWhile isPySpace ++ (l.drop 4).dropWhile isPySpace) := by
            rw [hdw]
          _ = '<' :: 'i' :: 's' :: '>' :: ((l.drop 4).takeWhile isPySpace ++ boolLit true) := by
            rw [ht]; rfl
      · rw [if_neg ht] at h
        by_cases hf : (l.drop 4).dropWhile isPySpace = ['f', 'a', 'l', 's', 'e']
        · rw [if_pos hf] at h
          cases h
          calc l = l.take 4 ++ l.drop 4 := hsplit.symm
            _ = ['<', 'i', 's', '>'] ++ l.drop 4 := by rw [h4]
            _ = ['<', 'i', 's', '>'] ++
                ((l.drop 4).takeWhile isPySpace ++ (l.drop 4).dropWhile isPySpace) := by
              rw [hdw]
            _ = '<' :: 'i' :: 's' :: '>' ::
                ((l.drop 4).takeWhile isPySpace ++ boolLit false) := by
              rw [hf]; rfl
        · rw [if_neg hf] at h
          exact absurd h (by simp)
    · rw [if_neg h4] at h
      exact absurd h (by simp)
  · rintro ⟨pad, hpad, rfl⟩
    unfold isMatch
    have h4 : ('<' :: 'i' :: 's' :: '>' :: (pad ++ boolLit b)).take 4
        = ['<', 'i', 's', '>'] := by
      simp [List.take]
    rw [if_pos h4]
    have hdrop : ('<' :: 'i' :: 's' :: '>' :: (pad ++ boolLit b)).drop 4
        = pad ++ boolLit b := by
      simp [List.drop]
    rw [hdrop, dropWhile_append_all hpad, dropWhile_boolLit]
    cases b <;> decide

/-- Bridge between the spec-side pattern predicate and the embedded
regex match. -/
lemma matchesIsBool_iff (s : String) (b : Bool) :
    matchesIsBool s b ↔ isMatch (lowerStrip s) = some b :=
  Iff.symm isMatch_eq_some

/-- C8: `parse_boolean_extra_spec(key, value)` returns `True` exactly for
string values that, after trimming, read `<is>` + optional whitespace +
`True` case-insensitively, `False` for the analogous `False` form, and
fails with `InvalidExtraSpec` on every other input (non-strings
included). -/
theorem parse_boolean_extra_spec_correct (key v : PyVal) :
    (∀ b, parse_boolean_extra_spec key v = Except.ok b ↔
      ∃ s, v = PyVal.str s ∧ matchesIsBool s b) ∧
    ((∀ b, parse_boolean_extra_spec key v ≠ Except.ok b) →
      parse_boolean_extra_spec key v = Except.error Exc.invalidExtraSpec) := by
  constructor
  · intro b
    constructor
    · intro hok
      cases v with
      | str s =>
        cases h : isMatch (lowerStrip s) with
        | some b' =>
          simp only [parse_boolean_extra_spec, h, Except.ok.injEq] at hok
          cases hok
          exact ⟨s, rfl, (matchesIsBool_iff s _).mpr h⟩
        | none => simp [parse_boolean_extra_spec, h] at hok
      | bool b' => simp [parse_boolean_extra_spec] at hok
      | int n => simp [parse_boolean_extra_spec] at hok
      | none => simp [parse_boolean_extra_spec] at hok
    · rintro ⟨s, rfl, hm⟩
      have h := (matchesIsBool_iff s b).mp hm
      simp [parse_boolean_extra_spec, h]
  · intro hne
    cases v with
    | str s =>
      cases h : isMatch (lowerStrip s) with
      | some b' => exact absurd (by simp [parse_boolean_extra_spec, h]) (hne b')
      | none => simp [parse_boolean_extra_spec, h]
    | bool b' => rfl
    | int n => rfl
    | none => rfl

/-! ## Lemmas about `group_types_diff` -/

lemma dlookup_dinsert {α : Type} (res : List (String × α)) (k k' : String) (v : α) :
    dlookup (dinsert res k v) k' = if k == k' then some v else dlookup res k' := by
  induction res with
  | nil =>
    by_cases h : k == k'
    · simp [dinsert, dlookup, h]
    · simp [dinsert, dlookup, h]
  | cons kv rest ih =>
    obtain ⟨k0, v0⟩ := kv
    by_cases h0 : k0 == k
    · have hk0 : k0 = k := by simpa using h0
      subst hk0
      by_cases h' : k0 == k'
      · simp [dinsert, dlookup, h0, h']
      · simp [dinsert, dlookup, h0, h']
    · by_cases h' : k0 == k'
      · have hk0 : k0 = k' := by simpa using h'
        subst hk0
        have : ¬(k == k0) := fun hc => h0 (by simpa using (by simpa using hc : k = k0).symm)
        simp [dinsert, dlookup, h0, h', this]
      · simp [dinsert, dlookup, h0, h', ih]

/-- `dkeys` distributes over cons. -/
lemma dkeys_cons {α : Type} (k0 : String) (v0 : α) (rest : List (String × α)) :
    dkeys ((k0, v0) :: rest) = k0 :: dkeys rest := rfl

/-- First `_dict_diff` loop: lookup characterisation.  Keys processed by
the loop map to `(value in d1, value in d2)`; other keys keep their
binding in the accumulator. -/
lemma diffLoop1_lookup (d2 : List (String × String)) (d1 : List (String × String))
    (res : List (String × (Option String × Option String))) (eq : Bool)
    (hnd : (dkeys d1).Nodup) (k : String) :
    dlookup (diffLoop1 d2 d1 (res, eq)).1 k =
      if k ∈ dkeys d1 then some (dlookup d1 k, dlookup d2 k) else dlookup res k := by
  induction d1 generalizing res eq with
  | nil => simp [diffLoop1, dkeys, dlookup]
  | cons kv rest ih =>
    obtain ⟨k0, v0⟩ := kv
    rw [dkeys_cons] at hnd
    have hnd' : (dkeys rest).Nodup := hnd.of_cons
    have hk0notin : k0 ∉ dkeys rest := (List.nodup_cons.mp hnd).1
    simp only [diffLoop1]
    rw [ih _ _ hnd']
    by_cases hmem : k ∈ dkeys rest
    · have hkne : k ≠ k0 := fun hc => hk0notin (hc ▸ hmem)
      rw [if_pos hmem, if_pos (by rw [dkeys_cons]; exact List.mem_cons_of_mem _ hmem)]
      have hl : dlookup ((k0, v0) :: rest) k = dlookup rest k := by
        simp [dlookup, show ¬(k0 == k) from by
          simpa using fun hc : k0 = k => hkne hc.symm]
      rw [hl]
    · rw [if_neg hmem]
      by_cases hk : k = k0
      · subst hk
        rw [if_pos (by rw [dkeys_cons]; exact List.mem_cons_self _ _), dlookup_dinsert]
        simp [dlookup]
      · have hnotin : k ∉ dkeys ((k0, v0) :: rest) := by
          rw [dkeys_cons]
          intro hc
          rcases List.mem_cons.mp hc with h1 | h1
          · exact hk h1
          · exact hmem h1
        rw [if_neg hnotin, dlookup_dinsert]
        simp [show ¬(k0 == k) from by simpa using fun hc : k0 = k => hk hc.symm]

/-- Second `_dict_diff` loop: lookup characterisation. -/
lemma diffLoop2_lookup (d1 : List (String × String)) (d2 : List (String × String))
    (res : List (String × (Option String × Option String))) (eq : Bool)
    (hnd : (dkeys d2).Nodup) (k : String) :
    dlookup (diffLoop2 d1 d2 (res, eq)).1 k =
      if k ∈ dkeys d2 then some (dlookup d1 k, dlookup d2 k) else dlookup res k := by
  induction d2 generalizing res eq with
  | nil => simp [diffLoop2, dkeys, dlookup]
  | cons kv rest ih =>
    obtain ⟨k0, v0⟩ := kv
    rw [dkeys_cons] at hnd
    have hnd' : (dkeys rest).Nodup := hnd.of_cons
    have hk0notin : k0 ∉ dkeys rest := (List.nodup_cons.mp hnd).1
    simp only [diffLoop2]
    rw [ih _ _ hnd']
    by_cases hmem : k ∈ dkeys rest
    · have hkne : k ≠ k0 := fun hc => hk0notin (hc ▸ hmem)
      rw [if_pos hmem, if_pos (by rw [dkeys_cons]; exact List.mem_cons_of_mem _ hmem)]
      have hl : dlookup ((k0, v0) :: rest) k = dlookup rest k := by
        simp [dlookup, show ¬(k0 == k) from by
          simpa using fun hc : k0 = k => hkne hc.symm]
      rw [hl]
    · rw [if_neg hmem]
      by_cases hk : k = k0
      · subst hk
        rw [if_pos (by rw [dkeys_cons]; exact List.mem_cons_self _ _), dlookup_dinsert]
        simp [dlookup]
      · have hnotin : k ∉ dkeys ((k0, v0) :: rest) := by
          rw [dkeys_cons]
          intro hc
          rcases List.mem_cons.mp hc with h1 | h1
          · exact hk h1
          · exact hmem h1
        rw [if_neg hnotin, dlookup_dinsert]
        simp [show ¬(k0 == k) from by simpa using fun hc : k0 = k => hk hc.symm]

/-- First `_dict_diff` loop: the `equal` flag accumulates, for every key
of `d1`, whether `d2` holds the same value. -/
lemma diffLoop1_eqflag (d2 : List (String × String)) (d1 : List (String × String))
    (res : List (String × (Option String × Option String))) (eq : Bool) :
    (diffLoop1 d2 d1 (res, eq)).2
      = (eq && d1.all (fun kv => dlookup d2 kv.1 == some kv.2)) := by
  induction d1 generalizing res eq with
  | nil => simp [diffLoop1]
  | cons kv rest ih =>
    obtain ⟨k0, v0⟩ := kv
    simp only [diffLoop1]
    rw [ih]
    cases hl : dlookup d2 k0 with
    | none => simp [hl, List.all_cons]
    | some w =>
      by_cases hw : w = v0
      · subst hw
        simp [hl, List.all_cons, Bool.and_assoc]
      · have h1 : (v0 == w) = false := by
          simpa using fun h : v0 = w => hw h.symm
        have h2 : (w == v0) = false := by simpa using hw
        simp [hl, List.all_cons, bne, h1, h2]

/-- Second `_dict_diff` loop: `equal`-flag characterisation. -/
lemma diffLoop2_eqflag (d1 : List (String × String)) (d2 : List (String × String))
    (res : List (String × (Option String × Option String))) (eq : Bool) :
    (diffLoop2 d1 d2 (res, eq)).2
      = (eq && d2.all (fun kv => dlookup d1 kv.1 == some kv.2)) := by
  induction d2 generalizing res eq with
  | nil => simp [diffLoop2]
  | cons kv rest ih =>
    obtain ⟨k0, v0⟩ := kv
    simp only [diffLoop2]
    rw [ih]
    cases hl : dlookup d1 k0 with
    | none => simp [hl, List.all_cons]
    | some w =>
      by_cases hw : w = v0
      · subst hw
        simp [hl, List.all_cons, Bool.and_assoc]
      · have h1 : (v0 == w) = false := by
          simpa using fun h : v0 = w => hw h.symm
        have h2 : (w == v0) = false := by simpa using hw
        simp [hl, List.all_cons, bne, h1, h2]

/-- Lookup characterisation of the full `_dict_diff` result: one entry per
key present in either input, pairing both lookups, `none` marking
absence. -/
lemma dictDiff_lookup (d1 d2 : List (String × String))
    (hnd1 : (dkeys d1).Nodup) (hnd2 : (dkeys d2).Nodup) (k : String) :
    dlookup (dictDiff d1 d2).1 k =
      if k ∈ dkeys d1 ∨ k ∈ dkeys d2
      then some (dlookup d1 k, dlookup d2 k) else none := by
  cases hp : diffLoop1 d2 d1 ([], true) with
  | mk res1 eq1 =>
    have h1 := diffLoop1_lookup d2 d1 [] true hnd1 k
    rw [hp] at h1
    unfold dictDiff
    rw [hp, diffLoop2_lookup _ _ _ _ hnd2]
    by_cases h2 : k ∈ dkeys d2
    · simp [h2]
    · rw [if_neg h2]
      have h1' : dlookup res1 k =
          if k ∈ dkeys d1 then some (dlookup d1 k, dlookup d2 k) else none := by
        simpa [dlookup] using h1
      rw [h1']
      by_cases hk1 : k ∈ dkeys d1
      · simp [hk1]
      · simp [hk1, h2]

/-- `equal`-flag characterisation of the full `_dict_diff` result. -/
lemma dictDiff_eqflag (d1 d2 : List (String × String)) :
    (dictDiff d1 d2).2
      = (d1.all (fun kv => dlookup d2 kv.1 == some kv.2) &&
         d2.all (fun kv => dlookup d1 kv.1 == some kv.2)) := by
  cases hp : diffLoop1 d2 d1 ([], true) with
  | mk res1 eq1 =>
    have h1 := diffLoop1_eqflag d2 d1 [] true
    rw [hp] at h1
    unfold dictDiff
    rw [hp, diffLoop2_eqflag]
    simp only at h1
    rw [h1]
    simp [Bool.and_assoc]

/-- A successful lookup exhibits a member. -/
lemma dlookup_eq_some_mem {α : Type} {d : List (String × α)} {k : String} {v : α}
    (h : dlookup d k = some v) : (k, v) ∈ d := by
  induction d with
  | nil => simp [dlookup] at h
  | cons kv rest ih =>
    obtain ⟨k0, v0⟩ := kv
    by_cases hk : k0 == k
    · have : k0 = k := by simpa using hk
      subst this
      simp [dlookup] at h
      subst h
      exact List.mem_cons_self _ _
    · simp [dlookup, hk] at h
      exact List.mem_cons_of_mem _ (ih h)

/-- With nodup keys, a member determines the lookup. -/
lemma mem_dlookup {α : Type} {d : List (String × α)} {k : String} {v : α}
    (hnd : (dkeys d).Nodup) (h : (k, v) ∈ d) : dlookup d k = some v := by
  induction d with
  | nil => simp at h
  | cons kv rest ih =>
    obtain ⟨k0, v0⟩ := kv
    rw [dkeys_cons] at hnd
    rcases List.mem_cons.mp h with h1 | h1
    · cases h1
      simp [dlookup]
    · have hk : k0 ≠ k := by
        intro hc
        subst hc
        exact (List.nodup_cons.mp hnd).1
          (by simpa [dkeys] using List.mem_map_of_mem Prod.fst h1)
      simp [dlookup, hk]
      exact ih (List.nodup_cons.mp hnd).2 h1

/-- The `equal` flag is true exactly when the two dictionaries have equal
lookups at every key. -/
lemma dictDiff_eqflag_iff (d1 d2 : List (String × String))
    (hnd1 : (dkeys d1).Nodup) (hnd2 : (dkeys d2).Nodup) :
    (dictDiff d1 d2).2 = true ↔ ∀ k, dlookup d1 k = dlookup d2 k := by
  rw [dictDiff_eqflag]
  simp only [Bool.and_eq_true, List.all_eq_true]
  constructor
  · rintro ⟨ha1, ha2⟩ k
    cases hl : dlookup d1 k with
    | some v =>
      have hm := dlookup_eq_some_mem hl
      have h2 := ha1 _ hm
      simp only [beq_iff_eq] at h2
      exact h2.symm
    | none =>
      cases hl2 : dlookup d2 k with
      | none => rfl
      | some w =>
        have hm := dlookup_eq_some_mem hl2
        have := ha2 _ hm
        simp at this
        rw [hl] at this
        exact absurd this (by simp)
  · intro h
    constructor
    · intro kv hm
      have : dlookup d1 kv.1 = some kv.2 := mem_dlookup hnd1 (by cases kv; exact hm)
      simp [← h kv.1, this]
    · intro kv hm
      have : dlookup d2 kv.1 = some kv.2 := mem_dlookup hnd2 (by cases kv; exact hm)
      simp [h kv.1, this]

/-- C9: `group_types_diff` is symmetric — same key set with swapped value
tuples, identical `equal` flag in both directions; the diff has one entry
per key present in either extra-specs map with `None` marking absence,
and `equal` is false exactly when some key is missing from one side or
the two values differ. -/
theorem group_types_diff_symmetric (db : DB) (id1 id2 : Option String)
    (t1 t2 : GroupTypeRec)
    (d12 d21 : List (String × (Option String × Option String)) × Bool)
    (h1 : get_group_type db id1 = Except.ok t1)
    (h2 : get_group_type db id2 = Except.ok t2)
    (hnd1 : (dkeys t1.extra_specs).Nodup)
    (hnd2 : (dkeys t2.extra_specs).Nodup)
    (hd : group_types_diff db id1 id2 = Except.ok d12)
    (hd' : group_types_diff db id2 id1 = Except.ok d21) :
    (∀ k x y, dlookup d12.1 k = some (x, y) ↔ dlookup d21.1 k = some (y, x)) ∧
    d12.2 = d21.2 ∧
    (∀ k, dlookup d12.1 k =
      if k ∈ dkeys t1.extra_specs ∨ k ∈ dkeys t2.extra_specs
      then some (dlookup t1.extra_specs k, dlookup t2.extra_specs k) else none) ∧
    (d12.2 = true ↔ ∀ k, dlookup t1.extra_specs k = dlookup t2.extra_specs k) := by
  simp only [group_types_diff, h1, h2] at hd hd'
  have hd12 : d12 = dictDiff t1.extra_specs t2.extra_specs := by
    cases hd
    rfl
  have hd21 : d21 = dictDiff t2.extra_specs t1.extra_specs := by
    cases hd'
    rfl
  subst hd12
  subst hd21
  refine ⟨?_, ?_, ?_, ?_⟩
  · intro k x y
    rw [dictDiff_lookup _ _ hnd1 hnd2, dictDiff_lookup _ _ hnd2 hnd1]
    by_cases hmem : k ∈ dkeys t1.extra_specs ∨ k ∈ dkeys t2.extra_specs
    · rw [if_pos hmem, if_pos (Or.symm hmem)]
      simp only [Option.some.injEq, Prod.mk.injEq]
      constructor
      · rintro ⟨rfl, rfl⟩
        exact ⟨rfl, rfl⟩
      · rintro ⟨rfl, rfl⟩
        exact ⟨rfl, rfl⟩
    · rw [if_neg hmem, if_neg (fun hc => hmem (Or.symm hc))]
      simp
  · rw [dictDiff_eqflag, dictDiff_eqflag, Bool.and_comm]
  · intro k
    exact dictDiff_lookup _ _ hnd1 hnd2 k
  · exact dictDiff_eqflag_iff _ _ hnd1 hnd2

/-- Witness for C9: the symmetry theorem at two concrete group types with
overlapping extra specs. -/
theorem group_types_diff_symmetric_witness :
    (∀ k x y, dlookup exDiff12.1 k = some (x, y) ↔ dlookup exDiff21.1 k = some (y, x)) ∧
    exDiff12.2 = exDiff21.2 ∧
    (∀ k, dlookup exDiff12.1 k =
      if k ∈ dkeys exType1.extra_specs ∨ k ∈ dkeys exType2.extra_specs
      then some (dlookup exType1.extra_specs k, dlookup exType2.extra_specs k)
      else none) ∧
    (exDiff12.2 = true ↔
      ∀ k, dlookup exType1.extra_specs k = dlookup exType2.extra_specs k) :=
  group_types_diff_symmetric exDb9 (some "gt-a") (some "gt-b") exType1 exType2
    exDiff12 exDiff21 (by decide) (by decide) (by decide) (by decide) rfl rfl

/-! ## Lemmas about `API.delete` and `API.create_group_snapshot` -/

/-- C6: deleting a group with no (falsy) host destroys the record and
dispatches nothing, with no status or content precondition. -/
theorem delete_no_host (db : DB) (group : ShareGroupRec)
    (hhost : truthyS group.host = false) :
    (delete db group).1 = Except.ok () ∧
    (delete db group).2.1 = share_group_destroy db group.id ∧
    (∀ g ∈ (delete db group).2.1.share_groups, g.id ≠ group.id) ∧
    (delete db group).2.2 = [] := by
  unfold delete
  rw [hhost]
  simp only [Bool.not_false, if_true]
  refine ⟨trivial, trivial, ?_, trivial⟩
  intro g hg
  unfold share_group_destroy at hg
  simp only [List.mem_filter, Bool.not_eq_eq_eq_not, Bool.not_true,
    beq_eq_false_iff_ne, ne_eq] at hg
  exact hg.2

/-- Witness for C6: a hostless group. -/
theorem delete_no_host_witness :
    truthyS exGroup2.host = false ∧
    ((delete exDb2 exGroup2).1 = Except.ok () ∧
     (delete exDb2 exGroup2).2.1 = share_group_destroy exDb2 exGroup2.id ∧
     (∀ g ∈ (delete exDb2 exGroup2).2.1.share_groups, g.id ≠ exGroup2.id) ∧
     (delete exDb2 exGroup2).2.2 = []) :=
  ⟨by decide, delete_no_host exDb2 exGroup2 (by decide)⟩

/-- C2 counterexample: a group with NO host that contains a share is
destroyed successfully by `delete`, so the unrestricted claim — that every
group containing a share fails with `InvalidShareGroup` — is false. -/
theorem delete_with_share_counterexample :
    count_shares_in_share_group exDb2 exGroup2.id = 1 ∧
    (delete exDb2 exGroup2).1 = Except.ok () ∧
    (delete exDb2 exGroup2).1 ≠ Except.error Exc.invalidShareGroup := by decide

/-- C2 (amended): for a group with a truthy host, containing a share or a
group snapshot, `delete` fails with `InvalidShareGroup` and leaves the
database (in particular the group's status) unchanged. -/
theorem delete_nonempty_group_rejected (db : DB) (group : ShareGroupRec)
    (hhost : truthyS group.host = true)
    (hcontent : count_group_snapshots_in_share_group db group.id ≠ 0 ∨
      count_shares_in_share_group db group.id ≠ 0) :
    delete db group = (Except.error Exc.invalidShareGroup, db, []) := by
  unfold delete
  split_ifs with h1 h2 h3 h4
  · rw [hhost] at h1
    simp at h1
  · rfl
  · rfl
  · rfl
  · cases hcontent with
    | inl h => exact absurd h h3
    | inr h => exact absurd h h4

/-- Witness for C2's amended statement: a hosted group containing one
share. -/
theorem delete_nonempty_group_rejected_witness :
    truthyS exGroup2b.host = true ∧
    count_shares_in_share_group exDb2b exGroup2b.id = 1 ∧
    delete exDb2b exGroup2b = (Except.error Exc.invalidShareGroup, exDb2b, []) :=
  ⟨by decide, by decide,
    delete_nonempty_group_rejected exDb2b exGroup2b (by decide)
      (Or.inr (by decide))⟩

/-- The member-status loop raises `InvalidShareGroup` whenever some share
is not AVAILABLE. -/
lemma checkSharesAvailable_err {shares : List ShareRec} {s : ShareRec}
    (hs : s ∈ shares) (hbad : s.status ≠ STATUS_AVAILABLE) :
    checkSharesAvailable shares = Except.error Exc.invalidShareGroup := by
  induction shares with
  | nil => simp at hs
  | cons s0 rest ih =>
    rcases List.mem_cons.mp hs with h | h
    · subst h
      simp [checkSharesAvailable, hbad]
    · by_cases h0 : s0.status ≠ STATUS_AVAILABLE
      · simp [checkSharesAvailable, h0]
      · simp only [checkSharesAvailable, if_neg h0]
        exact ih h

/-- C4: `create_group_snapshot` fails with `InvalidShareGroup` — database
untouched, nothing dispatched — when the group is not AVAILABLE or some
contained share is not AVAILABLE. -/
theorem create_group_snapshot_rejects (db : DB) (ctx : Ctx)
    (name description : Option String) (sid : String) (group : ShareGroupRec)
    (hget : share_group_get db sid = Except.ok group)
    (hbad : group.status ≠ STATUS_AVAILABLE ∨
      ∃ s ∈ share_get_all_by_share_group_id db sid, s.status ≠ STATUS_AVAILABLE) :
    create_group_snapshot db ctx name description (some sid)
      = (Except.error Exc.invalidShareGroup, db, []) := by
  cases hbad with
  | inl h => simp [create_group_snapshot, hget, h]
  | inr h =>
    obtain ⟨s, hs, hsbad⟩ := h
    by_cases hst : group.status ≠ STATUS_AVAILABLE
    · simp [create_group_snapshot, hget, hst]
    · have hcheck := checkSharesAvailable_err hs hsbad
      simp [create_group_snapshot, hget, hst, hcheck]

/-- Witness for C4: an AVAILABLE group with one CREATING share. -/
theorem create_group_snapshot_rejects_witness :
    share_group_get exDb4 "g4" = Except.ok exGroup4 ∧
    exGroup4.status = STATUS_AVAILABLE ∧
    exShare4.status ≠ STATUS_AVAILABLE ∧
    create_group_snapshot exDb4 exCtx none none (some "g4")
      = (Except.error Exc.invalidShareGroup, exDb4, []) :=
  ⟨by decide, by decide, by decide,
    create_group_snapshot_rejects exDb4 exCtx none none "g4" exGroup4 (by decide)
      (Or.inr ⟨exShare4, by decide, by decide⟩)⟩

/-! ## Lemmas about `API.create` -/

/-- C5 counterexample: `create` from a snapshot whose PARENT GROUP is not
AVAILABLE (but whose own status is AVAILABLE) succeeds — the code never
checks the parent group's status, so the claim as stated is false. -/
theorem create_parent_status_counterexample :
    share_group_get exDb5 "g0" = Except.ok exParent5 ∧
    exParent5.status ≠ STATUS_AVAILABLE ∧
    group_snapshot_get exDb5 "snap1" = Except.ok exSnap5 ∧
    exSnap5.share_group_id = "g0" ∧
    exArgs5.source_group_snapshot_id = some "snap1" ∧
    (create exDb5 exCtx okApi exArgs5).1.isOk = true ∧
    (create exDb5 exCtx okApi exArgs5).1 ≠ Except.error Exc.invalidGroupSnapshot := by
  decide

/-- C5 (amended): `create` with a source snapshot whose own status is not
AVAILABLE fails with `InvalidGroupSnapshot`, database untouched, nothing
dispatched. -/
theorem create_bad_snapshot_status (db : DB) (ctx : Ctx) (api : ShareApiFn)
    (a : CreateArgs) (sid : String) (snap : GroupSnapshotRec)
    (hsrc : optTruthy a.source_group_snapshot_id = some sid)
    (hsnap : group_snapshot_get db sid = Except.ok snap)
    (hst : snap.status ≠ STATUS_AVAILABLE) :
    create db ctx api a = (Except.error Exc.invalidGroupSnapshot, db, []) := by
  have hres : resolveSource db a = Except.error Exc.invalidGroupSnapshot := by
    simp only [resolveSource, hsrc, hsnap]
    rw [if_pos hst]
  have hval : validateCreate db a = Except.error Exc.invalidGroupSnapshot := by
    unfold validateCreate
    rw [hres]
  unfold create
  rw [hval]

/-- Witness for C5's amended statement: a snapshot stuck in CREATING. -/
theorem create_bad_snapshot_status_witness :
    group_snapshot_get exDb5b "snap2" = Except.ok exSnap5b ∧
    exSnap5b.status ≠ STATUS_AVAILABLE ∧
    create exDb5b exCtx okApi exArgs5b
      = (Except.error Exc.invalidGroupSnapshot, exDb5b, []) :=
  ⟨by decide, by decide,
    create_bad_snapshot_status exDb5b exCtx okApi exArgs5b "snap2" exSnap5b
      rfl (by decide) (by decide)⟩

/-- With the accumulator flag already set to `d`, the share-type loop
raises `InvalidInput` whenever some later type carries a different
DHSS value. -/
lemma dhssLoop_conflict_some (db : DB) (net : Option String) (d : Bool)
    (l : List String)
    (hres : ∀ tid ∈ l, (share_type_get db tid).isOk = true)
    (hwit : ∃ tid ∈ l, ∃ b, dhssValOf db tid = some b ∧ b ≠ d) :
    dhssLoop db net (some d) l = Except.error Exc.invalidInput := by
  induction l with
  | nil =>
    obtain ⟨tid, h, _⟩ := hwit
    simp at h
  | cons t0 rest ih =>
    have hres0 := hres t0 (List.mem_cons_self _ _)
    obtain ⟨st0, hst0⟩ : ∃ st, share_type_get db t0 = Except.ok st := by
      cases h : share_type_get db t0 with
      | ok st => exact ⟨st, rfl⟩
      | error e =>
        rw [h] at hres0
        simp [Except.isOk, Except.toBool] at hres0
    simp only [dhssLoop, hst0]
    by_cases hemp : st0.extra_specs = []
    · rw [if_pos hemp]
      apply ih (fun tid ht' => hres tid (List.mem_cons_of_mem _ ht'))
      obtain ⟨tid, hmem, b, hval, hne⟩ := hwit
      rcases List.mem_cons.mp hmem with rfl | hmem'
      · simp [dhssValOf, hst0, hemp] at hval
      · exact ⟨tid, hmem', b, hval, hne⟩
    · rw [if_neg hemp]
      by_cases hd : d != dhssOf st0
      · simp [hd]
      · rw [if_neg (by simpa using hd)]
        have hdd : dhssOf st0 = d := by
          have := hd
          simp [bne] at this
          exact this.symm
        by_cases hnet : (!(dhssOf st0)) && truthyS net
        · simp [hnet]
        · rw [if_neg (by simpa using hnet)]
          apply ih (fun tid ht' => hres tid (List.mem_cons_of_mem _ ht'))
          obtain ⟨tid, hmem, b, hval, hne⟩ := hwit
          rcases List.mem_cons.mp hmem with rfl | hmem'
          · simp only [dhssValOf, hst0, if_neg hemp, Option.some.injEq] at hval
            rw [← hval, hdd] at hne
            exact absurd rfl hne
          · exact ⟨tid, hmem', b, hval, hne⟩

/-- With the accumulator unset, the loop raises `InvalidInput` whenever
the list contains both a true-valued and a false-valued DHSS type. -/
lemma dhssLoop_conflict_none (db : DB) (net : Option String) (l : List String)
    (hres : ∀ tid ∈ l, (share_type_get db tid).isOk = true)
    (ht : ∃ tid ∈ l, dhssValOf db tid = some true)
    (hf : ∃ tid ∈ l, dhssValOf db tid = some false) :
    dhssLoop db net none l = Except.error Exc.invalidInput := by
  induction l with
  | nil =>
    obtain ⟨tid, h, _⟩ := ht
    simp at h
  | cons t0 rest ih =>
    have hres0 := hres t0 (List.mem_cons_self _ _)
    obtain ⟨st0, hst0⟩ : ∃ st, share_type_get db t0 = Except.ok st := by
      cases h : share_type_get db t0 with
      | ok st => exact ⟨st, rfl⟩
      | error e =>
        rw [h] at hres0
        simp [Except.isOk, Except.toBool] at hres0
    simp only [dhssLoop, hst0]
    by_cases hemp : st0.extra_specs = []
    · rw [if_pos hemp]
      apply ih (fun tid ht' => hres tid (List.mem_cons_of_mem _ ht'))
      · obtain ⟨tid, hmem, hval⟩ := ht
        rcases List.mem_cons.mp hmem with rfl | hmem'
        · simp [dhssValOf, hst0, hemp] at hval
        · exact ⟨tid, hmem', hval⟩
      · obtain ⟨tid, hmem, hval⟩ := hf
        rcases List.mem_cons.mp hmem with rfl | hmem'
        · simp [dhssValOf, hst0, hemp] at hval
        · exact ⟨tid, hmem', hval⟩
    · rw [if_neg hemp]
      by_cases hnet : (!(dhssOf st0)) && truthyS net
      · simp [hnet]
      · rw [if_neg (by simpa using hnet)]
        cases hb : dhssOf st0 with
        | true =>
          apply dhssLoop_conflict_some db net true rest
            (fun tid ht' => hres tid (List.mem_cons_of_mem _ ht'))
          obtain ⟨tid, hmem, hval⟩ := hf
          rcases List.mem_cons.mp hmem with rfl | hmem'
          · simp [dhssValOf, hst0, hemp, hb] at hval
          · exact ⟨tid, hmem', false, hval, by simp⟩
        | false =>
          apply dhssLoop_conflict_some db net false rest
            (fun tid ht' => hres tid (List.mem_cons_of_mem _ ht'))
          obtain ⟨tid, hmem, hval⟩ := ht
          rcases List.mem_cons.mp hmem with rfl | hmem'
          · simp [dhssValOf, hst0, hemp, hb] at hval
          · exact ⟨tid, hmem', true, hval, by simp⟩

/-- C3: a create call (without a snapshot source) whose share-type list
resolves but contains two types with conflicting DHSS extra-spec values
fails with `InvalidInput`, for every ordering of the list — the database
is untouched and nothing is dispatched. -/
theorem create_conflicting_dhss (db : DB) (ctx : Ctx) (api : ShareApiFn)
    (a : CreateArgs)
    (hsrc : optTruthy a.source_group_snapshot_id = none)
    (hres : ∀ tid ∈ listOr a.share_type_ids [], (share_type_get db tid).isOk = true)
    (ht : ∃ tid ∈ listOr a.share_type_ids [], dhssValOf db tid = some true)
    (hf : ∃ tid ∈ listOr a.share_type_ids [], dhssValOf db tid = some false) :
    create db ctx api a = (Except.error Exc.invalidInput, db, []) := by
  have hinfo : resolveSource db a
      = Except.ok ⟨none, a.share_type_ids, a.share_network_id, none⟩ := by
    unfold resolveSource
    rw [hsrc]
  have hloop := dhssLoop_conflict_none db a.share_network_id
    (listOr a.share_type_ids []) hres ht hf
  have hval : validateCreate db a = Except.error Exc.invalidInput := by
    unfold validateCreate
    rw [hinfo]
    simp only [validateRest, hloop]
  unfold create
  rw [hval]

/-- Witness for C3: two share types with opposite DHSS extra specs. -/
theorem create_conflicting_dhss_witness :
    dhssValOf exDb3 "tt" = some true ∧
    dhssValOf exDb3 "tf" = some false ∧
    create exDb3 exCtx okApi exArgs3 = (Except.error Exc.invalidInput, exDb3, []) :=
  ⟨by decide, by decide,
    create_conflicting_dhss exDb3 exCtx okApi exArgs3 rfl (by decide)
      ⟨"tt", by decide, by decide⟩ ⟨"tf", by decide, by decide⟩⟩

/-- C1: if the member-cloning phase of a snapshot-sourced `create` raises
any exception, the just-created group record is destroyed — no record
that was not already in the database remains — nothing is dispatched, and
the original exception is re-raised unchanged. -/
theorem create_clone_failure_compensates (db : DB) (ctx : Ctx) (api : ShareApiFn)
    (a : CreateArgs) (v : ValidatedCreate) (snap : GroupSnapshotRec)
    (og : ShareGroupRec) (e : Exc)
    (hv : validateCreate db a = Except.ok v)
    (hsrc : v.source = some (snap, og))
    (hclone : cloneMembers (dbAfterGroupCreate db (mkGroupRec db ctx a v)) api
      snap.id (mkGroupRec db ctx a v).id v.share_network_id = Except.error e) :
    (create db ctx api a).1 = Except.error e ∧
    (∀ g ∈ (create db ctx api a).2.1.share_groups, g ∈ db.share_groups) ∧
    (create db ctx api a).2.2 = [] := by
  have hc : create db ctx api a =
      (Except.error e,
        share_group_destroy (dbAfterGroupCreate db (mkGroupRec db ctx a v))
          (mkGroupRec db ctx a v).id, []) := by
    unfold create
    rw [hv]
    simp only [hsrc, hclone]
  rw [hc]
  refine ⟨rfl, ?_, rfl⟩
  intro g hg
  simp only [share_group_destroy, dbAfterGroupCreate, List.mem_filter,
    List.mem_append] at hg
  obtain ⟨hmem, hpred⟩ := hg
  cases hmem with
  | inl h => exact h
  | inr h =>
    simp only [List.mem_singleton] at h
    subst h
    simp at hpred

/-- Witness for C1: a snapshot with one member whose share-provisioning
call raises `external 7`. -/
theorem create_clone_failure_compensates_witness :
    validateCreate exDb1 exArgs5 = Except.ok exV1 ∧
    ((create exDb1 exCtx failApi exArgs5).1 = Except.error (Exc.external 7) ∧
     (∀ g ∈ (create exDb1 exCtx failApi exArgs5).2.1.share_groups,
        g ∈ exDb1.share_groups) ∧
     (create exDb1 exCtx failApi exArgs5).2.2 = []) :=
  ⟨by decide,
    create_clone_failure_compensates exDb1 exCtx failApi exArgs5 exV1 exSnap5
      exParent5 (Exc.external 7) (by decide) (by decide) (by decide)⟩

/-- Inversion of `resolveSource` on the snapshot path: the share types,
network and server are the parent group's. -/
lemma resolveSource_fields (db : DB) (a : CreateArgs) (info : SourceInfo)
    (snap : GroupSnapshotRec) (og : ShareGroupRec)
    (h : resolveSource db a = Except.ok info)
    (hs : info.source = some (snap, og)) :
    info.share_type_ids = some og.share_types ∧
    info.share_network_id = og.share_network_id ∧
    info.share_server_id = og.share_server_id := by
  unfold resolveSource at h
  split at h
  · split at h
    · cases h
    · split at h
      · cases h
      · split at h
        · cases h
        · cases h
          simp only [Option.some.injEq, Prod.mk.injEq] at hs
          obtain ⟨h1, h2⟩ := hs
          subst h1
          subst h2
          exact ⟨rfl, rfl, rfl⟩
  · cases h
    simp at hs

/-- Inversion of `validateRest`: a successful validation copies the
source-phase fields into the validated record. -/
lemma validateRest_fields (db : DB) (a : CreateArgs) (info : SourceInfo)
    (v : ValidatedCreate) (h : validateRest db a info = Except.ok v) :
    v.source = info.source ∧ v.share_type_ids = info.share_type_ids ∧
    v.share_network_id = info.share_network_id ∧
    v.share_server_id = info.share_server_id ∧
    v.supported = v.group_type.share_types.eraseDups := by
  unfold validateRest at h
  split at h
  · cases h
  · split at h
    · cases h
    · split at h
      · cases h
      · split at h
        · cases h
        · simp only [] at h
          split at h
          · cases h
            exact ⟨rfl, rfl, rfl, rfl, rfl⟩
          · cases h

/-- A successful `create` returns exactly the record `mkGroupRec` builds
from the validated data. -/
lemma create_ok_group (db : DB) (ctx : Ctx) (api : ShareApiFn) (a : CreateArgs)
    (v : ValidatedCreate) (g : ShareGroupRec)
    (hv : validateCreate db a = Except.ok v)
    (hok : (create db ctx api a).1 = Except.ok g) :
    g = mkGroupRec db ctx a v := by
  unfold create at hok
  rw [hv] at hok
  cases hsrc : v.source with
  | none =>
    simp only [hsrc] at hok
    cases hok
    rfl
  | some p =>
    obtain ⟨snap, og⟩ := p
    simp only [hsrc] at hok
    cases hcl : cloneMembers (dbAfterGroupCreate db (mkGroupRec db ctx a v)) api
        snap.id (mkGroupRec db ctx a v).id v.share_network_id with
    | error e =>
      rw [hcl] at hok
      cases hok
    | ok u =>
      rw [hcl] at hok
      cases hok
      rfl

/-- C7 counterexample: on the snapshot path with a parent group whose
`share_types` list is empty, the created group's `share_types` falls back
to the group type's full set instead of the parent's (empty) set, so the
claim that `share_type_ids` is always taken from the parent is false. -/
theorem create_share_types_not_inherited_counterexample :
    exParent7.share_types = [] ∧
    group_snapshot_get exDb7 "snap7" = Except.ok exSnap7 ∧
    exSnap7.share_group_id = "g7" ∧
    (create exDb7 exCtx okApi exArgs7).1.map (fun g => g.share_types)
      = Except.ok ["t1"] ∧
    (create exDb7 exCtx okApi exArgs7).1.map (fun g => g.share_types)
      ≠ Except.ok exParent7.share_types := by
  decide

/-- C7 (amended): a successful snapshot-sourced `create` takes the
group's `share_network_id` and `share_server_id` from the snapshot's
parent group (overriding caller-supplied values), and its `share_types`
as well whenever the parent's share-type list is non-empty (an empty
parent list falls back to the group type's full set). -/
theorem create_from_snapshot_inherits (db : DB) (ctx : Ctx) (api : ShareApiFn)
    (a : CreateArgs) (v : ValidatedCreate) (g : ShareGroupRec)
    (snap : GroupSnapshotRec) (og : ShareGroupRec)
    (hv : validateCreate db a = Except.ok v)
    (hsrc : v.source = some (snap, og))
    (hok : (create db ctx api a).1 = Except.ok g) :
    g.share_network_id = og.share_network_id ∧
    g.share_server_id = og.share_server_id ∧
    (og.share_types ≠ [] → g.share_types = og.share_types) := by
  have hg := create_ok_group db ctx api a v g hv hok
  obtain ⟨info, hinfo, hrest⟩ :
      ∃ info, resolveSource db a = Except.ok info ∧
        validateRest db a info = Except.ok v := by
    unfold validateCreate at hv
    cases hri : resolveSource db a with
    | error e =>
      rw [hri] at hv
      cases hv
    | ok info =>
      rw [hri] at hv
      exact ⟨info, rfl, hv⟩
  obtain ⟨hv1, hv2, hv3, hv4, hv5⟩ := validateRest_fields db a info v hrest
  have hsi : info.source = some (snap, og) := by
    rw [← hv1]
    exact hsrc
  obtain ⟨hr1, hr2, hr3⟩ := resolveSource_fields db a info snap og hinfo hsi
  subst hg
  refine ⟨?_, ?_, ?_⟩
  · simp only [mkGroupRec]
    rw [hv3, hr2]
  · simp only [mkGroupRec]
    rw [hv4, hr3]
  · intro hne
    simp only [mkGroupRec]
    rw [hv2, hr1]
    obtain ⟨x, xs, hxx⟩ : ∃ x xs, og.share_types = x :: xs := by
      cases hl : og.share_types with
      | nil => exact absurd hl hne
      | cons x xs => exact ⟨x, xs, rfl⟩
    rw [hxx]
    rfl

/-- Witness for C7's amended statement: a parent with one share type; the
created group inherits types, network and server from it. -/
theorem create_from_snapshot_inherits_witness :
    validateCreate exDb5 exArgs5 = Except.ok exV1 ∧
    ((create exDb5 exCtx okApi exArgs5).1
        = Except.ok (mkGroupRec exDb5 exCtx exArgs5 exV1)) ∧
    ((mkGroupRec exDb5 exCtx exArgs5 exV1).share_network_id
        = exParent5.share_network_id ∧
     (mkGroupRec exDb5 exCtx exArgs5 exV1).share_server_id
        = exParent5.share_server_id ∧
     (exParent5.share_types ≠ [] →
       (mkGroupRec exDb5 exCtx exArgs5 exV1).share_types
          = exParent5.share_types)) :=
  ⟨by decide, by decide,
    create_from_snapshot_inherits exDb5 exCtx okApi exArgs5 exV1
      (mkGroupRec exDb5 exCtx exArgs5 exV1) exSnap5 exParent5 (by decide)
      (by decide) (by decide)⟩

/-- C10: with no snapshot source, no share network and an empty or
omitted share-type list, `create` succeeds (the subset check passes
vacuously) and persists the group with `share_types` defaulted to the
group type's entire permitted set — the empty set if the group type
permits none — dispatching a placement request to the scheduler. -/
theorem create_default_share_types (db : DB) (ctx : Ctx) (api : ShareApiFn)
    (a : CreateArgs) (gt : GroupTypeRec)
    (hsrc : optTruthy a.source_group_snapshot_id = none)
    (hemp : listOr a.share_type_ids [] = [])
    (hnet : a.share_network_id = none)
    (hgt : db_group_type_get db a.share_group_type_id = Except.ok gt) :
    ∃ g, (create db ctx api a).1 = Except.ok g ∧
      g.share_types = gt.share_types.eraseDups ∧
      g ∈ (create db ctx api a).2.1.share_groups ∧
      (create db ctx api a).2.2 = [RpcCall.schedCreateShareGroup g.id] := by
  have hinfo : resolveSource db a
      = Except.ok ⟨none, a.share_type_ids, a.share_network_id, none⟩ := by
    unfold resolveSource
    rw [hsrc]
  have hval : validateCreate db a = Except.ok
      ⟨none, a.share_type_ids, a.share_network_id, none, gt,
        gt.share_types.eraseDups⟩ := by
    simp only [validateCreate, hinfo, validateRest, hemp, hnet, dhssLoop,
      checkNetwork, truthyS, hgt, List.all_nil, if_true]
    simp
  refine ⟨mkGroupRec db ctx a
    ⟨none, a.share_type_ids, a.share_network_id, none, gt,
      gt.share_types.eraseDups⟩, ?_, ?_, ?_, ?_⟩
  · unfold create
    rw [hval]
  · simp only [mkGroupRec]
    cases hst : a.share_type_ids with
    | none => rfl
    | some l =>
      cases l with
      | nil => rfl
      | cons x xs =>
        rw [hst] at hemp
        simp [listOr] at hemp
  · unfold create
    rw [hval]
    simp [dbAfterGroupCreate]
  · unfold create
    rw [hval]

/-- Witness for C10: a group type permitting no share types yields a
group with an empty `share_types` set. -/
theorem create_default_share_types_witness :
    (∃ g, (create exDb10 exCtx okApi exArgs10).1 = Except.ok g ∧
      g.share_types = List.eraseDups ([] : List String) ∧
      g ∈ (create exDb10 exCtx okApi exArgs10).2.1.share_groups ∧
      (create exDb10 exCtx okApi exArgs10).2.2
        = [RpcCall.schedCreateShareGroup g.id]) ∧
    List.eraseDups ([] : List String) = [] :=
  ⟨create_default_share_types exDb10 exCtx okApi exArgs10 ⟨"gt10", [], []⟩
      rfl rfl rfl (by decide), by decide⟩

/-- Witness for C8: the theorem evaluated at the spec's own examples. -/
theorem parse_boolean_extra_spec_correct_witness :
    parse_boolean_extra_spec PyVal.none (PyVal.str " <is> FaLsE ") = Except.ok false ∧
    parse_boolean_extra_spec PyVal.none (PyVal.str "True")
      = Except.error Exc.invalidExtraSpec ∧
    parse_boolean_extra_spec PyVal.none (PyVal.bool true)
      = Except.error Exc.invalidExtraSpec :=
  ⟨((parse_boolean_extra_spec_correct PyVal.none (PyVal.str " <is> FaLsE ")).1
      false).mpr ⟨" <is> FaLsE ", rfl, [' '], by decide, by decide⟩,
   (parse_boolean_extra_spec_correct PyVal.none (PyVal.str "True")).2 (by decide),
   (parse_boolean_extra_spec_correct PyVal.none (PyVal.bool true)).2 (by decide)⟩

end Manila
